import Mathlib

/-!
Verification of the pino-roll rotation engine (src/pino-roll.js).

The module `src/pino-roll.js` wires a set of event handlers around a
destination stream (SonicBoom): a write-completion handler accumulating
bytes towards a size threshold, a frequency timer rescheduled by
`scheduleRoll`, two process signal handlers, an error handler and a
retryEAGAIN hook, and a close handler cancelling the frequency timer.
All of them funnel into `roll ()`, which increments the file number and
reopens the destination at the new file name.

We embed this as an explicit state machine: `RollState` carries the
mutable variables of the closure (`number`, `currentSize`, the pending
zero-delay size roll, the outstanding frequency timer) together with a
trace of externally visible actions (reopen calls, stderr reports, timer
arming, zero-delay scheduling), and `step` dispatches one JavaScript
event-loop callback. The helpers from `lib/utils` (parseSize,
parseFrequency, getNext) are not part of the source tree; they are
modelled from the specification where a claim needs them.
-/

namespace PinoRoll

/-- Externally visible actions of the engine, in the order the code
performs them: `reopen n` is `destination.reopen(buildFileName(file, n, ...))`,
`report` is a `process.stderr.write` diagnostic, `armTimer d` is the
`setTimeout` arming the frequency timer to fire at deadline `d`, and
`scheduleSizeRoll` is the zero-delay `setTimeout(roll, 0)` issued by the
write handler. -/
inductive Action where
  | reopen (n : Nat)
  | report
  | armTimer (d : Int)
  | scheduleSizeRoll
deriving DecidableEq, Repr

/-- Normalized frequency, as produced by `parseFrequency` (spec section 4.2):
calendar-aligned daily or hourly rotation, or a raw millisecond interval. -/
inductive Freq where
  | daily
  | hourly
  | everyMs (n : Nat)
deriving DecidableEq, Repr

/-- Modelled from the spec: `getNext` of `lib/utils` is missing from src/;
spec section 3 (FrequencyDescriptor) defines `next(from)` as the start of the
following day/hour for daily/hourly (calendar alignment, timestamps in
milliseconds), and `from + interval` for a numeric interval. -/
def getNext (f : Freq) (now : Int) : Int :=
  match f with
  | .daily => now - now % 86400000 + 86400000
  | .hourly => now - now % 3600000 + 3600000
  | .everyMs n => now + (n : Int)

/-- Startup configuration after parsing, immutable for the process life:
`maxSize` is the parsed byte threshold (`parseSize(size)`), `frequency`
the parsed frequency descriptor, `mkdir` the auto-create-directory flag
forwarded in `opts`. -/
structure Config where
  maxSize : Option Nat
  frequency : Option Freq
  mkdir : Bool
deriving DecidableEq, Repr

/-- The mutable closure state of `module.exports` plus the action trace:
`number` and `currentSize` are the `let` variables, `pendingSizeRolls`
counts zero-delay `setTimeout(roll, 0)` callbacks scheduled but not yet
fired, `timers` counts outstanding frequency timers with `storedLive`
recording whether `rollTimeout` still refers to an outstanding timer,
`nextDeadline` is `frequencySpec.next`, and `closed` records that the
destination emitted its close event. -/
structure RollState where
  number : Nat
  currentSize : Nat
  pendingSizeRolls : Nat
  timers : Nat
  storedLive : Bool
  nextDeadline : Int
  closed : Bool
  trace : List Action
deriving DecidableEq, Repr

/-- `function roll () { destination.reopen(buildFileName(file, ++number, ...)) }`:
increment the sequence number and reopen the destination at the file name
built from the new number. -/
def roll (s : RollState) : RollState :=
  { s with
    number := s.number + 1
    trace := s.trace ++ [Action.reopen (s.number + 1)] }

/-- `function scheduleRoll () { clearTimeout(rollTimeout); rollTimeout = setTimeout(..., frequencySpec.next - Date.now()) }`:
cancel the timer currently stored in `rollTimeout` (a no-op when that timer
already fired or was cleared) and arm a fresh timer for `frequencySpec.next`. -/
def scheduleRoll (s : RollState) : RollState :=
  let s1 := if s.storedLive then
      { s with timers := s.timers - 1, storedLive := false }
    else s
  { s1 with
    timers := s1.timers + 1
    storedLive := true
    trace := s1.trace ++ [Action.armTimer s1.nextDeadline] }

/-- The `destination.on('write', writtenSize => ...)` handler, registered only
when `maxSize` is truthy: add the written size to `currentSize`; when the
threshold is reached, reset `currentSize` to 0 and schedule a zero-delay
`setTimeout(roll, 0)` (the roll itself is deferred, not executed here). -/
def handleWrite (cfg : Config) (w : Nat) (s : RollState) : RollState :=
  match cfg.maxSize with
  | none => s
  | some m =>
    if m = 0 then s
    else
      let c := s.currentSize + w
      if m ≤ c then
        { s with
          currentSize := 0
          pendingSizeRolls := s.pendingSizeRolls + 1
          trace := s.trace ++ [Action.scheduleSizeRoll] }
      else { s with currentSize := c }

/-- Firing of one zero-delay `setTimeout(roll, 0)` scheduled by the write
handler; these timeouts are never cleared, so each one scheduled eventually
runs `roll` exactly once. -/
def handleSizeRollFire (s : RollState) : RollState :=
  if s.pendingSizeRolls = 0 then s
  else roll { s with pendingSizeRolls := s.pendingSizeRolls - 1 }

/-- Firing of the frequency timer armed by `scheduleRoll`: the callback runs
`roll ()`, then `frequencySpec.next = getNext(frequency)`, then
`scheduleRoll ()`. A timer that was cleared never fires, so the event is a
no-op when no frequency timer is outstanding. -/
def handleTimerFire (cfg : Config) (now : Int) (s : RollState) : RollState :=
  if s.timers = 0 then s
  else
    match cfg.frequency with
    | none => s
    | some f =>
      let s0 := { s with timers := s.timers - 1, storedLive := false }
      let s1 := roll s0
      let s2 := { s1 with nextDeadline := getNext f now }
      scheduleRoll s2

/-- The `process.on('SIGHUP', ...)` handler: `roll ()`, unconditionally. -/
def handleSighup (s : RollState) : RollState :=
  roll s

/-- The `process.on('SIGUSR2', ...)` handler: `roll ()`, unconditionally. -/
def handleSigusr2 (s : RollState) : RollState :=
  roll s

/-- The `destination.on('error', err => ...)` handler: when `opts.mkdir` is
set, `roll ()` first; then `process.stderr.write` of the diagnostic. -/
def handleError (cfg : Config) (s : RollState) : RollState :=
  let s1 := if cfg.mkdir then roll s else s
  { s1 with trace := s1.trace ++ [Action.report] }

/-- The `destination.retryEAGAIN` hook: when `opts.mkdir` is set, `roll ()`
first; then `process.stderr.write` of the diagnostic. -/
def handleRetryEAGAIN (cfg : Config) (s : RollState) : RollState :=
  let s1 := if cfg.mkdir then roll s else s
  { s1 with trace := s1.trace ++ [Action.report] }

/-- The `destination.once('close', ...)` handler, registered only when a
frequency is configured: `clearTimeout(rollTimeout)`. In every case the
destination is now closed. -/
def handleClose (cfg : Config) (s : RollState) : RollState :=
  if cfg.frequency.isSome then
    let s1 := if s.storedLive then
        { s with timers := s.timers - 1, storedLive := false }
      else s
    { s1 with closed := true }
  else { s with closed := true }

/-- One event-loop callback delivered to the engine. -/
inductive Event where
  | write (w : Nat)
  | sizeRollFire
  | timerFire (now : Int)
  | sighup
  | sigusr2
  | error
  | retryEAGAIN
  | close
deriving DecidableEq, Repr

/-- Dispatch one event to the handler the source registers for it. -/
def step (cfg : Config) (s : RollState) (e : Event) : RollState :=
  match e with
  | .write w => handleWrite cfg w s
  | .sizeRollFire => handleSizeRollFire s
  | .timerFire now => handleTimerFire cfg now s
  | .sighup => handleSighup s
  | .sigusr2 => handleSigusr2 s
  | .error => handleError cfg s
  | .retryEAGAIN => handleRetryEAGAIN cfg s
  | .close => handleClose cfg s

/-- Run a sequence of event-loop callbacks in order (the single-threaded
JavaScript dispatch: each handler runs to completion before the next). -/
def run (cfg : Config) (s : RollState) (es : List Event) : RollState :=
  es.foldl (step cfg) s

/-- The state right after `module.exports` returns: `number` comes from
`detectLastNumber`, `currentSize = 0`, no pending size roll, and when a
frequency is configured `frequencySpec.next` is set and `scheduleRoll ()`
has armed the first timer. -/
def init (cfg : Config) (number0 : Nat) (now0 : Int) : RollState :=
  let base : RollState :=
    { number := number0
      currentSize := 0
      pendingSizeRolls := 0
      timers := 0
      storedLive := false
      nextDeadline := match cfg.frequency with
        | some f => getNext f now0
        | none => 0
      closed := false
      trace := [] }
  match cfg.frequency with
  | some _ => scheduleRoll base
  | none => base

/-- The sequence numbers passed to `destination.reopen`, in order. -/
def reopenNumbers (t : List Action) : List Nat :=
  t.filterMap fun a =>
    match a with
    | .reopen n => some n
    | _ => none

/-- At most one frequency timer is outstanding, and when one is outstanding
it is the one `rollTimeout` refers to. -/
def TimerInv (s : RollState) : Prop :=
  s.timers = 0 ∨ (s.timers = 1 ∧ s.storedLive = true)

instance (s : RollState) : Decidable (TimerInv s) := by
  unfold TimerInv
  infer_instance

/-- Every reopen recorded so far used a number at most the current one, and
the recorded numbers are strictly increasing. -/
def ReopenInv (s : RollState) : Prop :=
  (reopenNumbers s.trace).Pairwise (· < ·) ∧
    ∀ k ∈ reopenNumbers s.trace, k ≤ s.number

/-! ### Startup and configuration parsing

`module.exports` runs, in order: `parseFrequency(frequency)`,
`detectLastNumber(file, frequencySpec?.start)`, `parseSize(size)`, and only
then `new SonicBoom(...)`. `parseFrequency` and `parseSize` live in
`lib/utils`, which is not part of the source tree; they are modelled from
the specification (sections 4.1 and 4.2). A thrown `InvalidConfiguration`
is an `Except.error`, and the stream exists only in the `Except.ok` result. -/

/-- A size option as the caller may pass it: absent, a number, or a string. -/
inductive SizeSpec where
  | num (n : Nat)
  | str (s : String)
deriving DecidableEq, Repr

/-- A frequency option as the caller may pass it: absent, a number of
milliseconds, or a string. -/
inductive FreqSpec where
  | num (n : Int)
  | str (s : String)
deriving DecidableEq, Repr

/-- The configuration error taxonomy of spec section 7 that startup can
raise. -/
inductive ConfigError where
  | invalidConfiguration
deriving DecidableEq, Repr

/-- Digits of a string rendered as a number, `none` when the list is empty
or contains a non-digit. -/
def digitsToNat : List Char → Option Nat
  | [] => none
  | cs =>
    if cs.all Char.isDigit then
      some (cs.foldl (fun acc c => acc * 10 + (c.toNat - 48)) 0)
    else none

/-- Modelled from the spec: `parseSize` of `lib/utils` is missing from src/;
spec section 4.1 defines it on an integer (interpreted as megabytes) or a
string of digits followed by an optional case-insensitive unit suffix k, m
or g (kilobytes, megabytes, gigabytes; a bare digit string counts as
megabytes, matching the jsdoc of src/pino-roll.js). A malformed string is
an `InvalidConfiguration` error; absent input means no size limit. -/
def parseSize : Option SizeSpec → Except ConfigError (Option Nat)
  | none => .ok none
  | some (.num n) => .ok (some (n * 1048576))
  | some (.str s) =>
    let cs := s.toList
    let digits := cs.takeWhile Char.isDigit
    let rest := cs.dropWhile Char.isDigit
    match digitsToNat digits with
    | none => .error .invalidConfiguration
    | some v =>
      match rest with
      | [] => .ok (some (v * 1048576))
      | [c] =>
        if c = 'k' ∨ c = 'K' then .ok (some (v * 1024))
        else if c = 'm' ∨ c = 'M' then .ok (some (v * 1048576))
        else if c = 'g' ∨ c = 'G' then .ok (some (v * 1073741824))
        else .error .invalidConfiguration
      | _ => .error .invalidConfiguration

/-- Modelled from the spec: `parseFrequency` of `lib/utils` is missing from
src/; spec section 4.2 accepts the strings daily and hourly, or a positive
numeric millisecond interval; an unrecognized string or non-positive
interval is an `InvalidConfiguration` error; absent input means no
frequency. -/
def parseFrequency : Option FreqSpec → Except ConfigError (Option Freq)
  | none => .ok none
  | some (.str s) =>
    if s = ("daily") then .ok (some .daily)
    else if s = ("hourly") then .ok (some .hourly)
    else .error .invalidConfiguration
  | some (.num n) =>
    if n ≤ 0 then .error .invalidConfiguration
    else .ok (some (.everyMs n.toNat))

/-- The options `module.exports` destructures that this model needs. -/
structure StartupOpts where
  size : Option SizeSpec
  frequency : Option FreqSpec
  mkdir : Bool
deriving DecidableEq, Repr

/-- The startup sequence of `module.exports` in source order:
`parseFrequency(frequency)` first, then `detectLastNumber` (abstracted as a
function of the parsed frequency, since its directory I/O is external),
then `parseSize(size)`, and only then the destination is constructed and
the initial engine state built. A parse throw aborts with `Except.error`
before the `new SonicBoom(...)` line runs, so the caller never receives a
stream. -/
def startup (opts : StartupOpts) (detectLast : Option Freq → Nat) (now0 : Int) :
    Except ConfigError (Config × RollState) :=
  match parseFrequency opts.frequency with
  | .error e => .error e
  | .ok freq =>
    let number0 := detectLast freq
    match parseSize opts.size with
    | .error e => .error e
    | .ok maxSize =>
      let cfg : Config := { maxSize := maxSize, frequency := freq, mkdir := opts.mkdir }
      .ok (cfg, init cfg number0 now0)

/-! ### Basic lemmas about the trace and the handlers -/

theorem reopenNumbers_append (t u : List Action) :
    reopenNumbers (t ++ u) = reopenNumbers t ++ reopenNumbers u := by
  simp [reopenNumbers]

/-- Every event either leaves the sequence number alone and reopens nothing,
or is a completed roll: it increments the number by exactly one and reopens
the destination at exactly that successor number. -/
theorem step_delta (cfg : Config) (s : RollState) (e : Event) :
    ∃ t : List Action, (step cfg s e).trace = s.trace ++ t ∧
      (((step cfg s e).number = s.number ∧ reopenNumbers t = []) ∨
        ((step cfg s e).number = s.number + 1 ∧
          reopenNumbers t = [s.number + 1])) := by
  cases e with
  | write w =>
    cases hms : cfg.maxSize with
    | none => exact ⟨[], by simp [step, handleWrite, hms], Or.inl (by simp [step, handleWrite, hms, reopenNumbers])⟩
    | some m =>
      by_cases hz : m = 0
      · exact ⟨[], by simp [step, handleWrite, hms, hz], Or.inl (by simp [step, handleWrite, hms, hz, reopenNumbers])⟩
      · by_cases hc : m ≤ s.currentSize + w
        · exact ⟨[Action.scheduleSizeRoll], by simp [step, handleWrite, hms, hz, hc],
            Or.inl (by simp [step, handleWrite, hms, hz, hc, reopenNumbers])⟩
        · exact ⟨[], by simp [step, handleWrite, hms, hz, hc], Or.inl (by simp [step, handleWrite, hms, hz, hc, reopenNumbers])⟩
  | sizeRollFire =>
    by_cases hp : s.pendingSizeRolls = 0
    · exact ⟨[], by simp [step, handleSizeRollFire, hp], Or.inl (by simp [step, handleSizeRollFire, hp, reopenNumbers])⟩
    · exact ⟨[Action.reopen (s.number + 1)], by simp [step, handleSizeRollFire, hp, roll],
        Or.inr (by simp [step, handleSizeRollFire, hp, roll, reopenNumbers])⟩
  | timerFire now =>
    by_cases ht : s.timers = 0
    · exact ⟨[], by simp [step, handleTimerFire, ht], Or.inl (by simp [step, handleTimerFire, ht, reopenNumbers])⟩
    · cases hf : cfg.frequency with
      | none => exact ⟨[], by simp [step, handleTimerFire, ht, hf], Or.inl (by simp [step, handleTimerFire, ht, hf, reopenNumbers])⟩
      | some f =>
        refine ⟨[Action.reopen (s.number + 1), Action.armTimer (getNext f now)], ?_, Or.inr ⟨?_, ?_⟩⟩
        · simp [step, handleTimerFire, ht, hf, roll, scheduleRoll]
        · simp [step, handleTimerFire, ht, hf, roll, scheduleRoll]
        · simp [reopenNumbers]
  | sighup =>
    exact ⟨[Action.reopen (s.number + 1)], by simp [step, handleSighup, roll],
      Or.inr (by simp [step, handleSighup, roll, reopenNumbers])⟩
  | sigusr2 =>
    exact ⟨[Action.reopen (s.number + 1)], by simp [step, handleSigusr2, roll],
      Or.inr (by simp [step, handleSigusr2, roll, reopenNumbers])⟩
  | error =>
    by_cases hmk : cfg.mkdir
    · exact ⟨[Action.reopen (s.number + 1), Action.report], by simp [step, handleError, hmk, roll],
        Or.inr (by simp [step, handleError, hmk, roll, reopenNumbers])⟩
    · exact ⟨[Action.report], by simp [step, handleError, hmk],
        Or.inl (by simp [step, handleError, hmk, reopenNumbers])⟩
  | retryEAGAIN =>
    by_cases hmk : cfg.mkdir
    · exact ⟨[Action.reopen (s.number + 1), Action.report], by simp [step, handleRetryEAGAIN, hmk, roll],
        Or.inr (by simp [step, handleRetryEAGAIN, hmk, roll, reopenNumbers])⟩
    · exact ⟨[Action.report], by simp [step, handleRetryEAGAIN, hmk],
        Or.inl (by simp [step, handleRetryEAGAIN, hmk, reopenNumbers])⟩
  | close =>
    cases hf : cfg.frequency with
    | none => exact ⟨[], by simp [step, handleClose, hf], Or.inl (by simp [step, handleClose, hf, reopenNumbers])⟩
    | some f =>
      by_cases hs : s.storedLive
      · exact ⟨[], by simp [step, handleClose, hf, hs], Or.inl (by simp [step, handleClose, hf, hs, reopenNumbers])⟩
      · exact ⟨[], by simp [step, handleClose, hf, hs], Or.inl (by simp [step, handleClose, hf, hs, reopenNumbers])⟩

theorem reopenInv_step (cfg : Config) (s : RollState) (e : Event)
    (h : ReopenInv s) : ReopenInv (step cfg s e) := by
  obtain ⟨t, ht, hcase⟩ := step_delta cfg s e
  obtain ⟨hpw, hle⟩ := h
  rcases hcase with ⟨hn, hre⟩ | ⟨hn, hre⟩
  · refine ⟨?_, ?_⟩
    · rw [ht, reopenNumbers_append, hre, List.append_nil]
      exact hpw
    · intro k hk
      rw [ht, reopenNumbers_append, hre, List.append_nil] at hk
      rw [hn]
      exact hle k hk
  · refine ⟨?_, ?_⟩
    · rw [ht, reopenNumbers_append, hre]
      rw [List.pairwise_append]
      refine ⟨hpw, List.pairwise_singleton _ _, ?_⟩
      intro a ha b hb
      rw [List.mem_singleton] at hb
      subst hb
      exact Nat.lt_succ_of_le (hle a ha)
    · intro k hk
      rw [ht, reopenNumbers_append, hre] at hk
      rw [List.mem_append, List.mem_singleton] at hk
      rw [hn]
      rcases hk with hk | hk
      · exact Nat.le_succ_of_le (hle k hk)
      · exact hk.le

theorem reopenInv_run (cfg : Config) (s : RollState) (es : List Event)
    (h : ReopenInv s) : ReopenInv (run cfg s es) := by
  induction es generalizing s with
  | nil => exact h
  | cons e es ih =>
    rw [run, List.foldl_cons]
    exact ih _ (reopenInv_step cfg s e h)

theorem timerInv_init (cfg : Config) (n0 : Nat) (t0 : Int) :
    TimerInv (init cfg n0 t0) := by
  cases hf : cfg.frequency with
  | none => exact Or.inl (by simp [init, hf])
  | some f => exact Or.inr (by simp [init, hf, scheduleRoll])

theorem handleWrite_timers (cfg : Config) (w : Nat) (s : RollState) :
    (handleWrite cfg w s).timers = s.timers ∧
      (handleWrite cfg w s).storedLive = s.storedLive := by
  unfold handleWrite
  cases cfg.maxSize
  · exact ⟨rfl, rfl⟩
  · dsimp only
    split
    · exact ⟨rfl, rfl⟩
    · split
      · exact ⟨rfl, rfl⟩
      · exact ⟨rfl, rfl⟩

theorem handleSizeRollFire_timers (s : RollState) :
    (handleSizeRollFire s).timers = s.timers ∧
      (handleSizeRollFire s).storedLive = s.storedLive := by
  unfold handleSizeRollFire roll
  split
  · exact ⟨rfl, rfl⟩
  · exact ⟨rfl, rfl⟩

theorem handleError_timers (cfg : Config) (s : RollState) :
    (handleError cfg s).timers = s.timers ∧
      (handleError cfg s).storedLive = s.storedLive := by
  unfold handleError roll
  split
  · exact ⟨rfl, rfl⟩
  · exact ⟨rfl, rfl⟩

theorem handleRetryEAGAIN_timers (cfg : Config) (s : RollState) :
    (handleRetryEAGAIN cfg s).timers = s.timers ∧
      (handleRetryEAGAIN cfg s).storedLive = s.storedLive := by
  unfold handleRetryEAGAIN roll
  split
  · exact ⟨rfl, rfl⟩
  · exact ⟨rfl, rfl⟩

theorem timerInv_step (cfg : Config) (s : RollState) (e : Event)
    (h : TimerInv s) : TimerInv (step cfg s e) := by
  cases e with
  | write w =>
    obtain ⟨h1, h2⟩ := handleWrite_timers cfg w s
    rcases h with h | h
    · exact Or.inl (by rw [step, h1, h])
    · exact Or.inr (by rw [step, h1, h2]; exact h)
  | sizeRollFire =>
    obtain ⟨h1, h2⟩ := handleSizeRollFire_timers s
    rcases h with h | h
    · exact Or.inl (by rw [step, h1, h])
    · exact Or.inr (by rw [step, h1, h2]; exact h)
  | timerFire now =>
    by_cases ht : s.timers = 0
    · simpa [step, handleTimerFire, ht] using h
    · cases hf : cfg.frequency with
      | none => simpa [step, handleTimerFire, ht, hf] using h
      | some f =>
        refine Or.inr ?_
        rcases h with h | h
        · exact absurd h ht
        · simp [step, handleTimerFire, ht, hf, roll, scheduleRoll, h.1]
  | sighup =>
    rcases h with h | h
    · exact Or.inl (by simp [step, handleSighup, roll, h])
    · exact Or.inr (by simp [step, handleSighup, roll, h.1, h.2])
  | sigusr2 =>
    rcases h with h | h
    · exact Or.inl (by simp [step, handleSigusr2, roll, h])
    · exact Or.inr (by simp [step, handleSigusr2, roll, h.1, h.2])
  | error =>
    obtain ⟨h1, h2⟩ := handleError_timers cfg s
    rcases h with h | h
    · exact Or.inl (by rw [step, h1, h])
    · exact Or.inr (by rw [step, h1, h2]; exact h)
  | retryEAGAIN =>
    obtain ⟨h1, h2⟩ := handleRetryEAGAIN_timers cfg s
    rcases h with h | h
    · exact Or.inl (by rw [step, h1, h])
    · exact Or.inr (by rw [step, h1, h2]; exact h)
  | close =>
    cases hf : cfg.frequency with
    | none => simpa [step, handleClose, hf] using h
    | some f =>
      by_cases hs : s.storedLive
      · refine Or.inl ?_
        rcases h with h | h
        · simp [step, handleClose, hf, hs, h]
        · simp [step, handleClose, hf, hs, h.1]
      · rcases h with h | h
        · exact Or.inl (by simp [step, handleClose, hf, hs, h])
        · exact absurd h.2 hs

/-! ### Concrete fixtures used by the witnesses and the counterexample -/

/-- A configuration with a 1000-byte threshold, daily frequency and
directory auto-creation enabled. -/
def cfgW : Config :=
  { maxSize := some 1000, frequency := some .daily, mkdir := true }

/-- A configuration with directory auto-creation disabled. -/
def cfgNoMkdir : Config :=
  { maxSize := some 1000, frequency := none, mkdir := false }

/-- A fresh engine state with one armed frequency timer and one pending
deferred size roll. -/
def stateW : RollState :=
  { number := 0
    currentSize := 0
    pendingSizeRolls := 1
    timers := 1
    storedLive := true
    nextDeadline := 86400000
    closed := false
    trace := [] }

/-- The engine state right after startup with `cfgW`, before any event. -/
def stateFresh : RollState :=
  { number := 0
    currentSize := 0
    pendingSizeRolls := 0
    timers := 1
    storedLive := true
    nextDeadline := 86400000
    closed := false
    trace := [] }

/-- A state whose destination has already emitted its close event. -/
def stateClosed : RollState :=
  { number := 3
    currentSize := 0
    pendingSizeRolls := 0
    timers := 0
    storedLive := false
    nextDeadline := 86400000
    closed := true
    trace := [] }

/-! ### The claims -/

/-- Claim C5: every destination error event and every retryEAGAIN event
writes a diagnostic to stderr (a `report` action is always appended, never
silently dropped), and the event additionally performs a roll if and only
if the mkdir option is enabled; with mkdir disabled the handler appends
only the report, so the sequence number is unchanged and no reopen (hence
no file-path change) occurs. -/
theorem claim5_error_reports_and_rolls_iff_mkdir (cfg : Config) (s : RollState) :
    (handleError cfg s).trace =
      s.trace ++ (if cfg.mkdir then
        [Action.reopen (s.number + 1), Action.report] else [Action.report]) ∧
    (handleError cfg s).number =
      (if cfg.mkdir then s.number + 1 else s.number) ∧
    Action.report ∈ (handleError cfg s).trace ∧
    (handleRetryEAGAIN cfg s).trace =
      s.trace ++ (if cfg.mkdir then
        [Action.reopen (s.number + 1), Action.report] else [Action.report]) ∧
    (handleRetryEAGAIN cfg s).number =
      (if cfg.mkdir then s.number + 1 else s.number) ∧
    Action.report ∈ (handleRetryEAGAIN cfg s).trace := by
  by_cases hmk : cfg.mkdir <;>
    simp [handleError, handleRetryEAGAIN, roll, hmk]

/-- Claim C6: each of the two process signals (SIGHUP and SIGUSR2) causes an
immediate roll independent of size and time state (for every state `s`,
without any precondition on `currentSize`, timers or pending rolls), and
delivering the rotate-now signal twice before any other trigger fires
yields exactly two rolls whose reopen numbers increment by 1 each. -/
theorem claim6_signals_roll_immediately (cfg : Config) (s : RollState) :
    (step cfg s Event.sighup).number = s.number + 1 ∧
    (step cfg s Event.sighup).trace = s.trace ++ [Action.reopen (s.number + 1)] ∧
    (step cfg s Event.sigusr2).number = s.number + 1 ∧
    (step cfg s Event.sigusr2).trace = s.trace ++ [Action.reopen (s.number + 1)] ∧
    (run cfg s [Event.sighup, Event.sighup]).number = s.number + 2 ∧
    (run cfg s [Event.sighup, Event.sighup]).trace =
      s.trace ++ [Action.reopen (s.number + 1), Action.reopen (s.number + 2)] := by
  simp [run, step, handleSighup, handleSigusr2, roll]

/-- Claim C8, counterexample: with mkdir enabled, the error handler of
src/pino-roll.js lines 76-81 calls `roll()` first and only then writes the
diagnostic, so on a fresh state the produced trace is reopen-then-report
and the report does not precede the reopen — refuting the claimed
report-then-roll ordering. -/
theorem claim8_counterexample_roll_precedes_report :
    (handleError cfgW stateFresh).trace = [Action.reopen 1, Action.report] ∧
    ¬ List.indexOf Action.report (handleError cfgW stateFresh).trace <
        List.indexOf (Action.reopen 1) (handleError cfgW stateFresh).trace := by
  constructor
  · rfl
  · decide

/-- Claim C8, amended: when a destination error triggers a recovery roll
(mkdir enabled), the roll occurs before the diagnostic message is reported
(roll-then-report ordering), for every error event handled while the
stream is live. -/
theorem claim8_amended_roll_then_report (cfg : Config) (s : RollState)
    (hmk : cfg.mkdir = true) :
    (handleError cfg s).trace =
      s.trace ++ [Action.reopen (s.number + 1), Action.report] := by
  simp [handleError, roll, hmk]

/-- Witness for the amended C8 at a concrete configuration and state. -/
theorem claim8_amended_witness :
    (handleError cfgW stateFresh).trace =
      stateFresh.trace ++ [Action.reopen 1, Action.report] :=
  claim8_amended_roll_then_report cfgW stateFresh rfl

/-- Claim C10: the SIGHUP and SIGUSR2 handlers stay registered after the
destination closes, so a signal delivered to a closed-destination state
still executes a roll: the sequence number is incremented and a reopen of
the (still closed) destination is issued. -/
theorem claim10_signals_after_close_still_roll (cfg : Config) (s : RollState)
    (hc : s.closed = true) :
    (step cfg s Event.sighup).number = s.number + 1 ∧
    (step cfg s Event.sighup).trace = s.trace ++ [Action.reopen (s.number + 1)] ∧
    (step cfg s Event.sighup).closed = true ∧
    (step cfg s Event.sigusr2).number = s.number + 1 ∧
    (step cfg s Event.sigusr2).trace = s.trace ++ [Action.reopen (s.number + 1)] ∧
    (step cfg s Event.sigusr2).closed = true := by
  simp [step, handleSighup, handleSigusr2, roll, hc]

/-- Claim C1: across every event the sequence number is monotonically
non-decreasing and a completed roll increases it by exactly 1 (so each
event changes it by 0 or 1, whichever trigger fired); from a state with
one pending size roll and one armed frequency timer, firing the size roll
and the timer in either order ends with `number = initial + 2`; and the
startup state satisfies the reopen invariant which every run preserves:
the numbers claimed by successive reopens are pairwise strictly
increasing, so no two triggers ever claim the same successor number. -/
theorem claim1_number_monotone_and_order_independent :
    (∀ (cfg : Config) (s : RollState) (e : Event),
      s.number ≤ (step cfg s e).number ∧ (step cfg s e).number ≤ s.number + 1) ∧
    (∀ (cfg : Config) (f : Freq) (s : RollState) (now : Int),
      cfg.frequency = some f → s.pendingSizeRolls = 1 → s.timers = 1 →
      s.storedLive = true →
      (run cfg s [Event.sizeRollFire, Event.timerFire now]).number = s.number + 2 ∧
      (run cfg s [Event.timerFire now, Event.sizeRollFire]).number = s.number + 2) ∧
    (∀ (cfg : Config) (n0 : Nat) (t0 : Int), ReopenInv (init cfg n0 t0)) ∧
    (∀ (cfg : Config) (s : RollState) (es : List Event),
      ReopenInv s → ReopenInv (run cfg s es)) := by
  refine ⟨?_, ?_, ?_, reopenInv_run⟩
  · intro cfg s e
    obtain ⟨t, _, hcase⟩ := step_delta cfg s e
    rcases hcase with ⟨hn, _⟩ | ⟨hn, _⟩ <;> omega
  · intro cfg f s now hf hp ht hs
    constructor
    · simp [run, step, handleSizeRollFire, handleTimerFire, roll, scheduleRoll,
        hf, hp, ht, hs]
    · simp [run, step, handleSizeRollFire, handleTimerFire, roll, scheduleRoll,
        hf, hp, ht, hs]
  · intro cfg n0 t0
    cases hf : cfg.frequency with
    | none => exact ⟨by simp [init, hf, reopenNumbers], by simp [init, hf, reopenNumbers]⟩
    | some f =>
      exact ⟨by simp [init, hf, scheduleRoll, reopenNumbers],
        by simp [init, hf, scheduleRoll, reopenNumbers]⟩

/-- Witness for C1 on a concrete state with one pending size roll and one
armed timer: both trigger orders end two numbers higher. -/
theorem claim1_witness :
    (run cfgW stateW [Event.sizeRollFire, Event.timerFire 200]).number =
      stateW.number + 2 ∧
    (run cfgW stateW [Event.timerFire 200, Event.sizeRollFire]).number =
      stateW.number + 2 :=
  claim1_number_monotone_and_order_independent.2.1 cfgW Freq.daily stateW 200
    rfl rfl rfl rfl

/-- Claim C2: with a positive byte threshold `m` configured, a
write-completion notification adds its byte count to `currentSize`; the
first write (600-style, below the threshold) schedules nothing, and the
write whose cumulative count reaches the threshold resets `currentSize`
to 0 at scheduling time and schedules exactly one deferred roll (the
handler itself performs no roll: the number is unchanged); when that
deferred roll fires it performs exactly one roll, and a write arriving
after the reset counts from 0 with no stale carry-over. -/
theorem claim2_size_threshold_schedules_exactly_one_roll
    (cfg : Config) (m : Nat) (s : RollState) (w1 w2 : Nat)
    (hm : cfg.maxSize = some m) (hz : s.currentSize = 0)
    (h1 : w1 < m) (h2 : m ≤ w1 + w2) :
    (step cfg s (Event.write w1)).currentSize = w1 ∧
    (step cfg s (Event.write w1)).pendingSizeRolls = s.pendingSizeRolls ∧
    (step cfg s (Event.write w1)).number = s.number ∧
    (step cfg (step cfg s (Event.write w1)) (Event.write w2)).currentSize = 0 ∧
    (step cfg (step cfg s (Event.write w1)) (Event.write w2)).pendingSizeRolls =
      s.pendingSizeRolls + 1 ∧
    (step cfg (step cfg s (Event.write w1)) (Event.write w2)).number = s.number ∧
    (step cfg (step cfg s (Event.write w1)) (Event.write w2)).trace =
      s.trace ++ [Action.scheduleSizeRoll] ∧
    (run cfg s [Event.write w1, Event.write w2, Event.sizeRollFire]).number =
      s.number + 1 ∧
    (run cfg s [Event.write w1, Event.write w2, Event.sizeRollFire]).pendingSizeRolls =
      s.pendingSizeRolls ∧
    (∀ w3, w3 < m →
      (run cfg s [Event.write w1, Event.write w2, Event.write w3]).currentSize = w3) := by
  have hmz : m ≠ 0 := by omega
  have hw1 : ¬ m ≤ w1 := Nat.not_le.mpr h1
  have e1 : step cfg s (Event.write w1) = { s with currentSize := w1 } := by
    simp [step, handleWrite, hm, hmz, hz, hw1]
  have e2 : step cfg { s with currentSize := w1 } (Event.write w2) =
      { s with
        currentSize := 0
        pendingSizeRolls := s.pendingSizeRolls + 1
        trace := s.trace ++ [Action.scheduleSizeRoll] } := by
    simp [step, handleWrite, hm, hmz, h2]
  have e3 : step cfg
      { s with
        currentSize := 0
        pendingSizeRolls := s.pendingSizeRolls + 1
        trace := s.trace ++ [Action.scheduleSizeRoll] } Event.sizeRollFire =
      { s with
        currentSize := 0
        pendingSizeRolls := s.pendingSizeRolls
        number := s.number + 1
        trace := s.trace ++ [Action.scheduleSizeRoll, Action.reopen (s.number + 1)] } := by
    simp [step, handleSizeRollFire, roll]
  have er : run cfg s [Event.write w1, Event.write w2, Event.sizeRollFire] =
      step cfg (step cfg (step cfg s (Event.write w1)) (Event.write w2))
        Event.sizeRollFire := by
    simp [run]
  refine ⟨?_, ?_, ?_, ?_, ?_, ?_, ?_, ?_, ?_, ?_⟩
  · rw [e1]
  · rw [e1]
  · rw [e1]
  · rw [e1, e2]
  · rw [e1, e2]
  · rw [e1, e2]
  · rw [e1, e2]
  · rw [er, e1, e2, e3]
  · rw [er, e1, e2, e3]
  · intro w3 h3
    have erw : run cfg s [Event.write w1, Event.write w2, Event.write w3] =
        step cfg (step cfg (step cfg s (Event.write w1)) (Event.write w2))
          (Event.write w3) := by
      simp [run]
    rw [erw, e1, e2]
    simp [step, handleWrite, hm, hmz, Nat.not_le.mpr h3]

/-- Witness for C2 with threshold 1000 and notifications of 600 then 500,
followed by the deferred roll firing and a 300-byte write. -/
theorem claim2_witness :
    (step cfgW stateFresh (Event.write 600)).currentSize = 600 ∧
    (step cfgW stateFresh (Event.write 600)).pendingSizeRolls =
      stateFresh.pendingSizeRolls ∧
    (step cfgW stateFresh (Event.write 600)).number = stateFresh.number ∧
    (step cfgW (step cfgW stateFresh (Event.write 600)) (Event.write 500)).currentSize = 0 ∧
    (step cfgW (step cfgW stateFresh (Event.write 600)) (Event.write 500)).pendingSizeRolls =
      stateFresh.pendingSizeRolls + 1 ∧
    (step cfgW (step cfgW stateFresh (Event.write 600)) (Event.write 500)).number =
      stateFresh.number ∧
    (step cfgW (step cfgW stateFresh (Event.write 600)) (Event.write 500)).trace =
      stateFresh.trace ++ [Action.scheduleSizeRoll] ∧
    (run cfgW stateFresh [Event.write 600, Event.write 500, Event.sizeRollFire]).number =
      stateFresh.number + 1 ∧
    (run cfgW stateFresh [Event.write 600, Event.write 500, Event.sizeRollFire]).pendingSizeRolls =
      stateFresh.pendingSizeRolls ∧
    (∀ w3, w3 < 1000 →
      (run cfgW stateFresh [Event.write 600, Event.write 500, Event.write w3]).currentSize = w3) :=
  claim2_size_threshold_schedules_exactly_one_roll cfgW 1000 stateFresh 600 500
    rfl rfl (by decide) (by decide)

/-- Claim C9: with a positive threshold `m` configured and `currentSize`
below `m`, processing any sequence of write-completion notifications (each
byte count a natural number, hence non-negative) leaves `currentSize`
strictly below `m` at the completion of every handler: it is reset to 0
the instant the accumulated count reaches the threshold, and the lower
bound 0 holds since the count is a natural number. -/
theorem claim9_currentSize_below_threshold
    (cfg : Config) (m : Nat) (hm : cfg.maxSize = some m) (hpos : 0 < m)
    (s : RollState) (hs : s.currentSize < m) (ws : List Nat) :
    (ws.foldl (fun t w => step cfg t (Event.write w)) s).currentSize < m := by
  induction ws generalizing s with
  | nil => exact hs
  | cons w ws ih =>
    rw [List.foldl_cons]
    refine ih _ ?_
    have hmz : m ≠ 0 := by omega
    by_cases hc : m ≤ s.currentSize + w
    · simp [step, handleWrite, hm, hmz, hc, hpos]
    · simp [step, handleWrite, hm, hmz, hc]
      omega

/-- Witness for C9: threshold 1000, writes 600, 500, 999, 1, 2500. -/
theorem claim9_witness :
    (([600, 500, 999, 1, 2500] : List Nat).foldl
      (fun t w => step cfgW t (Event.write w)) stateFresh).currentSize < 1000 :=
  claim9_currentSize_below_threshold cfgW 1000 rfl (by decide) stateFresh
    (by decide) [600, 500, 999, 1, 2500]

/-- Claim C3: with a frequency configured, at most one rotation timer is
outstanding at any time (the startup state satisfies `TimerInv` and every
event preserves it), and when the timer fires the engine performs one
roll, recomputes the next deadline from the frequency specification via
`getNext`, and re-arms exactly one new timer for that recomputed deadline
(the armTimer action carries `getNext f now` and follows the reopen). -/
theorem claim3_single_timer_roll_then_rearm :
    (∀ (cfg : Config) (n0 : Nat) (t0 : Int), TimerInv (init cfg n0 t0)) ∧
    (∀ (cfg : Config) (s : RollState) (e : Event),
      TimerInv s → TimerInv (step cfg s e)) ∧
    (∀ (cfg : Config) (f : Freq) (s : RollState) (now : Int),
      cfg.frequency = some f → s.timers = 1 → s.storedLive = true →
      (step cfg s (Event.timerFire now)).number = s.number + 1 ∧
      (step cfg s (Event.timerFire now)).nextDeadline = getNext f now ∧
      (step cfg s (Event.timerFire now)).timers = 1 ∧
      (step cfg s (Event.timerFire now)).storedLive = true ∧
      (step cfg s (Event.timerFire now)).trace =
        s.trace ++ [Action.reopen (s.number + 1), Action.armTimer (getNext f now)]) := by
  refine ⟨timerInv_init, timerInv_step, ?_⟩
  intro cfg f s now hf ht hs
  refine ⟨?_, ?_, ?_, ?_, ?_⟩ <;>
    simp [step, handleTimerFire, roll, scheduleRoll, hf, ht, hs]

/-- Witness for C3: from the fresh startup-like state, the timer fire at
time 200 rolls once and re-arms one timer for the next daily boundary. -/
theorem claim3_witness :
    (step cfgW stateFresh (Event.timerFire 200)).number = stateFresh.number + 1 ∧
    (step cfgW stateFresh (Event.timerFire 200)).nextDeadline = getNext Freq.daily 200 ∧
    (step cfgW stateFresh (Event.timerFire 200)).timers = 1 ∧
    (step cfgW stateFresh (Event.timerFire 200)).storedLive = true ∧
    (step cfgW stateFresh (Event.timerFire 200)).trace =
      stateFresh.trace ++
        [Action.reopen (stateFresh.number + 1), Action.armTimer (getNext Freq.daily 200)] :=
  claim3_single_timer_roll_then_rearm.2.2 cfgW Freq.daily stateFresh 200 rfl rfl rfl

/-- Claim C4: with a frequency configured, the close event cancels the
pending rotation timer (no timer remains outstanding), and a timer fire
arriving after the close leaves the state completely unchanged: no roll is
performed, no reopen is issued, and no error or diagnostic is raised. -/
theorem claim4_close_cancels_timer (cfg : Config) (s : RollState) (now : Int)
    (hinv : TimerInv s) (hf : cfg.frequency.isSome) :
    (step cfg s Event.close).timers = 0 ∧
    step cfg (step cfg s Event.close) (Event.timerFire now) = step cfg s Event.close ∧
    (step cfg (step cfg s Event.close) (Event.timerFire now)).number =
      (step cfg s Event.close).number ∧
    (step cfg (step cfg s Event.close) (Event.timerFire now)).trace =
      (step cfg s Event.close).trace := by
  obtain ⟨f, hf⟩ := Option.isSome_iff_exists.mp hf
  have hzero : (step cfg s Event.close).timers = 0 := by
    by_cases hs : s.storedLive
    · rcases hinv with h | h
      · simp [step, handleClose, hf, hs, h]
      · simp [step, handleClose, hf, hs, h.1]
    · rcases hinv with h | h
      · simp [step, handleClose, hf, hs, h]
      · exact absurd h.2 hs
  have hnoop : step cfg (step cfg s Event.close) (Event.timerFire now) =
      step cfg s Event.close := by
    rw [step, handleTimerFire, if_pos hzero]
  exact ⟨hzero, hnoop, by rw [hnoop], by rw [hnoop]⟩

/-- Witness for C4: on the fresh state with one armed timer, closing drops
the outstanding timer to zero and a later fire is a no-op. -/
theorem claim4_witness :
    (step cfgW stateFresh Event.close).timers = 0 ∧
    step cfgW (step cfgW stateFresh Event.close) (Event.timerFire 5000) =
      step cfgW stateFresh Event.close ∧
    (step cfgW (step cfgW stateFresh Event.close) (Event.timerFire 5000)).number =
      (step cfgW stateFresh Event.close).number ∧
    (step cfgW (step cfgW stateFresh Event.close) (Event.timerFire 5000)).trace =
      (step cfgW stateFresh Event.close).trace :=
  claim4_close_cancels_timer cfgW stateFresh 5000 (Or.inr ⟨rfl, rfl⟩) rfl

/-- Claim C7: the startup sequence evaluates `parseFrequency` and
`parseSize` before the destination is constructed, so if either raises
`InvalidConfiguration` the result is an error and the caller never
receives an opened stream; conversely a returned stream implies both
parses succeeded; and the malformed size string 5x concretely aborts
startup. -/
theorem claim7_config_errors_precede_stream :
    (∀ (opts : StartupOpts) (detectLast : Option Freq → Nat) (now0 : Int),
      ((∃ e, parseFrequency opts.frequency = Except.error e) ∨
        (∃ e, parseSize opts.size = Except.error e)) →
      ∃ e, startup opts detectLast now0 = Except.error e) ∧
    (∀ (opts : StartupOpts) (detectLast : Option Freq → Nat) (now0 : Int)
      (c : Config × RollState),
      startup opts detectLast now0 = Except.ok c →
      (∃ f, parseFrequency opts.frequency = Except.ok f) ∧
        (∃ m, parseSize opts.size = Except.ok m)) ∧
    (∀ (detectLast : Option Freq → Nat) (now0 : Int) (mk : Bool),
      startup { size := some (SizeSpec.str ("5x")), frequency := none, mkdir := mk }
          detectLast now0 =
        Except.error ConfigError.invalidConfiguration) := by
  refine ⟨?_, ?_, ?_⟩
  · intro opts detectLast now0 h
    cases hpf : parseFrequency opts.frequency with
    | error e => exact ⟨e, by simp [startup, hpf]⟩
    | ok f =>
      cases hps : parseSize opts.size with
      | error e => exact ⟨e, by simp [startup, hpf, hps]⟩
      | ok m =>
        rcases h with ⟨e, he⟩ | ⟨e, he⟩
        · rw [hpf] at he; exact absurd he (by simp)
        · rw [hps] at he; exact absurd he (by simp)
  · intro opts detectLast now0 c hok
    cases hpf : parseFrequency opts.frequency with
    | error e => simp [startup, hpf] at hok
    | ok f =>
      cases hps : parseSize opts.size with
      | error e => simp [startup, hpf, hps] at hok
      | ok m => exact ⟨⟨f, rfl⟩, ⟨m, rfl⟩⟩
  · intro detectLast now0 mk
    rfl

/-- Witness for C7: a malformed size specification makes startup fail even
though a valid frequency was parsed first. -/
theorem claim7_witness :
    ∃ e, startup
        { size := some (SizeSpec.str ("5x")),
          frequency := some (FreqSpec.str ("daily")), mkdir := false }
        (fun _ => 0) 0 = Except.error e :=
  claim7_config_errors_precede_stream.1
    { size := some (SizeSpec.str ("5x")),
      frequency := some (FreqSpec.str ("daily")), mkdir := false }
    (fun _ => 0) 0 (Or.inr ⟨ConfigError.invalidConfiguration, rfl⟩)

/-- Witness for C10 on a concrete closed state. -/
theorem claim10_witness :
    (step cfgW stateClosed Event.sighup).number = stateClosed.number + 1 ∧
    (step cfgW stateClosed Event.sighup).trace =
      stateClosed.trace ++ [Action.reopen (stateClosed.number + 1)] ∧
    (step cfgW stateClosed Event.sighup).closed = true ∧
    (step cfgW stateClosed Event.sigusr2).number = stateClosed.number + 1 ∧
    (step cfgW stateClosed Event.sigusr2).trace =
      stateClosed.trace ++ [Action.reopen (stateClosed.number + 1)] ∧
    (step cfgW stateClosed Event.sigusr2).closed = true :=
  claim10_signals_after_close_still_roll cfgW stateClosed rfl

end PinoRoll
